import Mathlib

/-!
# HouseOps low-stock alert pipeline — verification development

A shallow embedding of the alerting core of the HouseOps inventory app:

* `src/functions/index.js` — the `notifyLowStock` document-update trigger
  (stock state classifier, transition detector, cooldown gate, audit/feed
  record writer, fan-out message builder, delivery-outcome processor,
  `getEnabledTokens`, `disableToken`);
* `src/notifications/savePushToken.ts` — device-token registration;
* `src/app/(tabs)/alerts.tsx` — the client-side `markOneAsRead` read-receipt
  write.

Firestore documents are modelled as Lean structures whose optional fields are
`Option`-typed; a collection is an association list `List (String × α)` from
document id to document data.  `set(..., { merge: true })` is modelled by
`setMergeDoc` (update the document if present, create it otherwise, leaving
unmentioned fields alone).  Timestamps are integer epoch milliseconds; the
JavaScript float division `(now - ms) / 60000` is modelled exactly over `ℚ`.
-/

namespace HouseOps

/-- The three stock classification buckets returned by `getState`
(`src/functions/index.js` lines 11–17). -/
inductive StockState : Type
  | OUT
  | LOW
  | OK
deriving DecidableEq, Repr

/-- The classifier `getState(qty, min)` from `src/functions/index.js` lines 11–17.  The JS
coercion `Number(x ?? 0)` applied to possibly-missing fields is performed at
each call site (via `Option.getD 0`), so here both arguments are integers. -/
def getState (qty min : Int) : StockState :=
  if qty ≤ 0 then .OUT
  else if qty ≤ min then .LOW
  else .OK

/-- The helper `minutesSince` (lines 19–23) on a present timestamp: exact rational value
of the JS float `(now - ms) / 60000`.  The missing-timestamp case
(`Infinity`) is handled where the function is used, in `suppressAlert`. -/
def minutesSince (now ts : Int) : ℚ :=
  ((now : ℚ) - (ts : ℚ)) / 60000

/-- The cooldown constant `COOLDOWN_MINUTES` (line 87). -/
def COOLDOWN_MINUTES : ℚ := 10

/-- The cooldown-gate condition of line 92:
`lastAlertState === nextState && minutesSince(lastAlertAt) < COOLDOWN_MINUTES`.
A missing `lastAlertAt` makes `minutesSince` return `Infinity`, which is never
below the cooldown, hence the `none ↦ false` branch.  The guard
`(now - ts) / 60000 < 10` is phrased as the equivalent integer comparison
`now - ts < 10 * 60000` so the gate evaluates by kernel reduction; the lemma
`suppressAlert_eq_true_iff` below proves it equal to the source's
`minutesSince … < COOLDOWN_MINUTES` form. -/
def suppressAlert (now : Int) (lastAlertState : Option StockState)
    (lastAlertAt : Option Int) (nextState : StockState) : Bool :=
  decide (lastAlertState = some nextState) &&
    (match lastAlertAt with
      | none => false
      | some ts => decide (now - ts < 10 * 60000))

/-- An `items/{itemId}` document (StockRecord), with the fields the trigger
reads and writes.  All Firestore fields may be absent, hence `Option`. -/
structure Item : Type where
  currentQuantity : Option Int := none
  minQuantity : Option Int := none
  siteId : String := ""
  name : Option String := none
  alertState : Option StockState := none
  lastAlertAt : Option Int := none
  lastAlertState : Option StockState := none
deriving DecidableEq, Repr

/-- A `devicePushTokens/{token}` document (DeviceToken).  The document id is
kept outside, as the key of the association list; the `token` field is the
payload field of the same name. -/
structure TokenDoc : Type where
  token : Option String := none
  uid : Option String := none
  siteId : Option String := none
  enabled : Option Bool := none
  label : Option String := none
  platform : Option String := none
  createdAt : Option Int := none
  updatedAt : Option Int := none
  disabledAt : Option Int := none
  disableReason : Option String := none
deriving DecidableEq, Repr

/-- Fetch a document by id from a collection (Firestore `doc(...).get()`). -/
def lookupDoc {α : Type} : List (String × α) → String → Option α
  | [], _ => none
  | p :: rest, id => if p.1 = id then some p.2 else lookupDoc rest id

/-- Firestore `doc(id).set(data, { merge: true })`: if the document exists its
fields are merged (`f` applies the written fields on top of the old data),
otherwise the document is created holding just the written fields
(`blank`). -/
def setMergeDoc {α : Type} : List (String × α) → String → (α → α) → α → List (String × α)
  | [], id, _, blank => [(id, blank)]
  | p :: rest, id, f, blank =>
    if p.1 = id then (p.1, f p.2) :: rest
    else p :: setMergeDoc rest id f blank

/-- JS truthiness of an optional string (`undefined`, `null` and `""` are
falsy). -/
def jsTruthyStr : Option String → Bool
  | none => false
  | some s => decide (s ≠ "")

/-- JavaScript `String.prototype.trim()`: strip leading and trailing
whitespace (modelled over the ASCII whitespace characters recognised by
`Char.isWhitespace`). -/
def jsTrim (s : String) : String :=
  String.mk (((s.data.dropWhile Char.isWhitespace).reverse.dropWhile Char.isWhitespace).reverse)

/-- The recipient resolver `getEnabledTokens(siteId)` (lines 25–33): query
`where("enabled","==",true).where("siteId","==",siteId)`, map each document to
its `token` field, and `filter(Boolean)` the result (dropping missing and
empty tokens). -/
def getEnabledTokens (db : List (String × TokenDoc)) (siteId : String) : List String :=
  ((db.filter (fun p => decide (p.2.enabled = some true) && decide (p.2.siteId = some siteId))).map
      (fun p => p.2.token)).filterMap
    (fun t =>
      match t with
      | none => none
      | some s => if s = "" then none else some s)

/-- The soft delete `disableToken(token, reason)` (lines 35–51): merge-write
`{enabled: false, disabledAt: serverTimestamp(), disableReason: reason}` onto
`devicePushTokens/{token}`. -/
def disableToken (db : List (String × TokenDoc)) (now : Int) (token reason : String) :
    List (String × TokenDoc) :=
  setMergeDoc db token
    (fun d => { d with enabled := some false, disabledAt := some now, disableReason := some reason })
    { enabled := some false, disabledAt := some now, disableReason := some reason }

/-- One per-message delivery ticket from the push gateway response. -/
structure Ticket : Type where
  status : Option String := none
  message : Option String := none
  detailsError : Option String := none
deriving DecidableEq, Repr

/-- JS `a || b` on an optional string against a string default. -/
def orElseStr (a : Option String) (b : String) : String :=
  match a with
  | none => b
  | some s => if s = "" then b else s

/-- The error reason extracted on line 191:
`t?.details?.error || t?.message || "unknown"`. -/
def ticketReason (t : Ticket) : String :=
  orElseStr t.detailsError (orElseStr t.message "unknown")

/-- The `data` payload of a push message (line 177). -/
structure PushData : Type where
  itemId : String
  state : StockState
  qty : Int
  min : Int
deriving DecidableEq, Repr

/-- One Expo push message (lines 170–178). -/
structure PushMessage : Type where
  «to» : String
  sound : String := "default"
  title : String
  body : String
  priority : String := "high"
  channelId : String := "default"
  data : PushData
deriving DecidableEq, Repr

/-- The delivery-ticket loop of lines 187–196: tickets are matched to request
messages by position; a ticket with `status === "error"` whose extracted
reason is `"DeviceNotRegistered"` disables the token of the message at the
same index.  A ticket at an index beyond the request list yields
`messages[i]?.«to» === undefined`, whose `disableToken` call throws inside its
own `try` and changes nothing — hence the `zip` truncation. -/
def processTicketPairs (now : Int) :
    List (String × TokenDoc) → List (Ticket × PushMessage) → List (String × TokenDoc)
  | db, [] => db
  | db, tm :: rest =>
    if tm.1.status = some "error" ∧ ticketReason tm.1 = "DeviceNotRegistered" then
      processTicketPairs now (disableToken db now tm.2.«to» (ticketReason tm.1)) rest
    else processTicketPairs now db rest

/-- Delivery-outcome processing of a whole response against its request. -/
def processTickets (db : List (String × TokenDoc)) (now : Int)
    (tickets : List Ticket) (messages : List PushMessage) : List (String × TokenDoc) :=
  processTicketPairs now db (tickets.zip messages)

/-- The audit record written to `alertsLog` (lines 135–146).  The trigger is
its only writer, so fields are plain.  The post-dispatch status updates to
`"sent"`/`"error"` (lines 185 and 199) happen after the network call and are
outside the creation result modelled here. -/
structure AuditRecord : Type where
  createdAt : Int
  itemId : String
  itemName : String
  prevState : StockState
  nextState : StockState
  qty : Int
  min : Int
  tokenCount : Nat
  status : String
deriving DecidableEq, Repr

/-- The `readBy` membership map of a feed record: Firestore map field from
device token to boolean. -/
def ReadByMap : Type := String → Option Bool

/-- The empty `readBy: {}` map written at feed-record creation (line 162). -/
def emptyReadBy : ReadByMap := fun _ => none

/-- The app-facing alert feed record written to `alerts` (lines 152–163).
Fields are optional because the client's merge write may create a document
holding only `readBy`/`updatedAt`. -/
structure FeedRecord : Type where
  createdAt : Option Int := none
  type : Option String := none
  title : Option String := none
  body : Option String := none
  itemId : Option String := none
  itemName : Option String := none
  qty : Option Int := none
  min : Option Int := none
  siteId : Option String := none
  readBy : ReadByMap := emptyReadBy
  updatedAt : Option Int := none

/-- Everything one invocation of the trigger produces: the resulting
`items/{itemId}` document, the created audit and feed records (if any), the
built push messages, and whether the alert path was taken at all
(`dispatched = false` for the two early exits and for cooldown
suppression). -/
structure TriggerResult : Type where
  item : Item
  audit : Option AuditRecord := none
  feed : Option FeedRecord := none
  messages : List PushMessage := []
  dispatched : Bool := false

/-- The `notifyLowStock` trigger body (`src/functions/index.js` lines
66–178) as a pure function of the before/after snapshots, the current time
(standing for both `Date.now()` and `serverTimestamp()`), and the
`devicePushTokens` collection.

The JS fallback `title = "Stock update"` / `body = "... changed."` of lines
118–119 is dead code: `getState` always returns one of OUT/LOW/OK, so one of
the three branches of lines 121–130 always overwrites it; the `match` here is
therefore exhaustive without a default.  When the recipient list is empty the
code returns before building messages (line 165), which coincides with
mapping over the empty list. -/
def notifyLowStock (now : Int) (tokenDb : List (String × TokenDoc)) (itemId : String)
    (before after : Item) : TriggerResult :=
  let beforeQty := before.currentQuantity.getD 0
  let afterQty := after.currentQuantity.getD 0
  let minQty := after.minQuantity.getD 0
  if beforeQty = afterQty then { item := after }
  else
    let prevState := getState beforeQty minQty
    let nextState := getState afterQty minQty
    if prevState = nextState then { item := after }
    else
      if suppressAlert now after.lastAlertState after.lastAlertAt nextState then
        { item := { after with alertState := some nextState } }
      else
        let item2 : Item :=
          { after with
            alertState := some nextState
            lastAlertAt := some now
            lastAlertState := some nextState }
        let tokens := getEnabledTokens tokenDb after.siteId
        let itemName := after.name.getD "Unnamed item"
        let title :=
          match nextState with
          | .OUT => "Out of stock"
          | .LOW => "Low stock"
          | .OK => "Restocked"
        let body :=
          match nextState with
          | .OUT => s!"{itemName} is OUT (0 left)."
          | .LOW => s!"{itemName} is LOW ({afterQty} left, min {minQty})."
          | .OK => s!"{itemName} was restocked ({afterQty} now in stock)."
        let audit : AuditRecord :=
          { createdAt := now
            itemId := itemId
            itemName := itemName
            prevState := prevState
            nextState := nextState
            qty := afterQty
            min := minQty
            tokenCount := tokens.length
            status := if tokens.length ≠ 0 then "sending" else "no_tokens" }
        let feed : FeedRecord :=
          { createdAt := some now
            type := some (if nextState = .OUT then "out" else if nextState = .LOW then "low" else "restock")
            title := some title
            body := some body
            itemId := some itemId
            itemName := some itemName
            qty := some afterQty
            min := some minQty
            siteId := some after.siteId
            readBy := emptyReadBy }
        { item := item2
          audit := some audit
          feed := some feed
          messages := tokens.map (fun tk =>
            { «to» := tk
              title := title
              body := body
              data := { itemId := itemId, state := nextState, qty := afterQty, min := minQty } })
          dispatched := true }

/-- The registration function `savePushToken(token, siteId, label)` from
`src/notifications/savePushToken.ts` lines 6–72, as a function of the
`devicePushTokens` collection.  `user` is the ambient `auth.currentUser` uid
(`none` when signed out).  The function no-ops (returning the collection
unchanged, raising nothing) when there is no user, when the trimmed site id is
empty, or when the existing document's ownership check fails; otherwise it
merge-writes the registration fields, preserving an existing `createdAt`. -/
def savePushToken (db : List (String × TokenDoc)) (now : Int) (user : Option String)
    (token siteId : String) (label : Option String) (platform : String) :
    List (String × TokenDoc) :=
  match user with
  | none => db
  | some uid =>
    let cleanSiteId := jsTrim siteId
    if cleanSiteId = "" then db
    else
      let existing := lookupDoc db token
      let uidMismatch :=
        match existing with
        | none => false
        | some d => jsTruthyStr d.uid && decide (d.uid ≠ some uid)
      let siteMismatch :=
        match existing with
        | none => false
        | some d => jsTruthyStr d.siteId && decide (d.siteId ≠ some cleanSiteId)
      if uidMismatch then db
      else if siteMismatch then db
      else
        let cleanLabel :=
          match label with
          | none => none
          | some l => if jsTrim l = "" then none else some (jsTrim l)
        let writeFields := fun (d : TokenDoc) =>
          { d with
            token := some token
            uid := some uid
            siteId := some cleanSiteId
            label := cleanLabel
            platform := some platform
            enabled := some true
            updatedAt := some now
            createdAt := some (d.createdAt.getD now) }
        setMergeDoc db token writeFields
          { token := some token
            uid := some uid
            siteId := some cleanSiteId
            label := cleanLabel
            platform := some platform
            enabled := some true
            updatedAt := some now
            createdAt := some now }

/-- Write `{token: true}` into a `readBy` map, leaving other keys alone: the
effect of the nested-map merge of `setDoc(ref, { readBy: { [token]: true } },
{ merge: true })`. -/
def setRead (m : ReadByMap) (token : String) : ReadByMap :=
  fun s => if s = token then some true else m s

/-- The read-receipt write `markOneAsRead(alertId)` from `src/app/(tabs)/alerts.tsx` lines 172–188,
over the `alerts` collection.  `token` is the device's push token
(`string | null`); `if (!token) return` makes the call a no-op for a missing
or empty token.  Otherwise the merge write adds `{token: true}` to the
document's `readBy` map and stamps `updatedAt`, creating the document if it
does not exist. -/
def markOneAsRead (db : List (String × FeedRecord)) (now : Int) (alertId : String)
    (token : Option String) : List (String × FeedRecord) :=
  match token with
  | none => db
  | some tk =>
    if tk = "" then db
    else
      setMergeDoc db alertId
        (fun r => { r with readBy := setRead r.readBy tk, updatedAt := some now })
        { readBy := setRead emptyReadBy tk, updatedAt := some now }

/-- Run a sequence of `markOneAsRead` calls `(now, alertId, token)` in
order. -/
def runMarks (db : List (String × FeedRecord)) :
    List (Int × String × Option String) → List (String × FeedRecord)
  | [] => db
  | c :: rest => runMarks (markOneAsRead db c.1 c.2.1 c.2.2) rest

/-- Whether device token `s` is recorded (with any value) in the `readBy` map
of alert `id` — "token present in readBy". -/
def hasRead (db : List (String × FeedRecord)) (id s : String) : Bool :=
  match lookupDoc db id with
  | none => false
  | some r => (r.readBy s).isSome

/-- Apply one trigger invocation as a state change of the item document: the
new snapshot is the old one with `currentQuantity` replaced by `q`, and the
item resulting from `notifyLowStock` becomes the stored document. -/
def applyUpdate (tokenDb : List (String × TokenDoc)) (itemId : String) (item : Item)
    (now : Int) (q : Option Int) : Item :=
  (notifyLowStock now tokenDb itemId item { item with currentQuantity := q }).item

/-- Run a sequence of quantity updates `(now, q)` through the trigger. -/
def runUpdates (tokenDb : List (String × TokenDoc)) (itemId : String) :
    Item → List (Int × Option Int) → Item
  | item, [] => item
  | item, u :: rest => runUpdates tokenDb itemId (applyUpdate tokenDb itemId item u.1 u.2) rest

/-- Every update in the sequence leaves the alert path untaken (each
invocation either exits early or is suppressed by the cooldown gate). -/
def allNonDispatching (tokenDb : List (String × TokenDoc)) (itemId : String) :
    Item → List (Int × Option Int) → Bool
  | _, [] => true
  | item, u :: rest =>
    !(notifyLowStock u.1 tokenDb itemId item { item with currentQuantity := u.2 }).dispatched &&
      allNonDispatching tokenDb itemId (applyUpdate tokenDb itemId item u.1 u.2) rest

/-- The feed-record `type` of the §6 mapping table:
`OUT ↦ "out"`, `LOW ↦ "low"`, `OK ↦ "restock"`. -/
def alertTypeFor (n : StockState) : String :=
  match n with
  | .OUT => "out"
  | .LOW => "low"
  | .OK => "restock"

/-- The notification `title` of the §6 mapping table. -/
def alertTitleFor (n : StockState) : String :=
  match n with
  | .OUT => "Out of stock"
  | .LOW => "Low stock"
  | .OK => "Restocked"

/-- The notification `body` of the §6 mapping table, instantiated with the
item name and the post-mutation quantity and minimum. -/
def alertBodyFor (n : StockState) (nm : String) (qty min : Int) : String :=
  match n with
  | .OUT => s!"{nm} is OUT (0 left)."
  | .LOW => s!"{nm} is LOW ({qty} left, min {min})."
  | .OK => s!"{nm} was restocked ({qty} now in stock)."

/-! ## Helper lemmas -/

/-- The integer guard used in `suppressAlert` agrees with the source's
`(now - ts) / 60000 < 10` float comparison, computed exactly over `ℚ`. -/
theorem minutesSince_lt_cooldown_iff (now ts : Int) :
    minutesSince now ts < COOLDOWN_MINUTES ↔ now - ts < 10 * 60000 := by
  unfold minutesSince COOLDOWN_MINUTES
  rw [div_lt_iff₀ (by norm_num : (0:ℚ) < 60000)]
  constructor
  · intro h
    have : ((now - ts : Int) : ℚ) < ((10 * 60000 : Int) : ℚ) := by push_cast; linarith
    exact_mod_cast this
  · intro h
    have : ((now - ts : Int) : ℚ) < ((10 * 60000 : Int) : ℚ) := by exact_mod_cast h
    push_cast at this
    linarith

/-- The cooldown gate fires exactly when the last alert was for the same
resulting state and strictly less than `COOLDOWN_MINUTES` minutes have
elapsed since it; a missing `lastAlertAt` (infinite elapsed time) never
fires. -/
theorem suppressAlert_eq_true_iff (now : Int) (ls : Option StockState)
    (la : Option Int) (ns : StockState) :
    suppressAlert now ls la ns = true ↔
      ls = some ns ∧ ∃ ts, la = some ts ∧ minutesSince now ts < COOLDOWN_MINUTES := by
  cases la with
  | none => simp [suppressAlert]
  | some ts => simp [suppressAlert, minutesSince_lt_cooldown_iff]

/-- Early exit of line 78: coinciding (coerced) quantities leave everything
untouched. -/
theorem notifyLowStock_qty_eq (now : Int) (tdb : List (String × TokenDoc)) (itemId : String)
    (before after : Item)
    (h : before.currentQuantity.getD 0 = after.currentQuantity.getD 0) :
    notifyLowStock now tdb itemId before after = { item := after } := by
  unfold notifyLowStock
  simp [h]

/-- Early exit of line 84: the quantity moved but the bucket did not. -/
theorem notifyLowStock_state_eq (now : Int) (tdb : List (String × TokenDoc)) (itemId : String)
    (before after : Item)
    (hq : before.currentQuantity.getD 0 ≠ after.currentQuantity.getD 0)
    (hs : getState (before.currentQuantity.getD 0) (after.minQuantity.getD 0) =
          getState (after.currentQuantity.getD 0) (after.minQuantity.getD 0)) :
    notifyLowStock now tdb itemId before after = { item := after } := by
  unfold notifyLowStock
  simp [hq, hs]

/-- Suppressed branch of lines 92–95: only the cached `alertState` is
written. -/
theorem notifyLowStock_suppressed (now : Int) (tdb : List (String × TokenDoc)) (itemId : String)
    (before after : Item)
    (hq : before.currentQuantity.getD 0 ≠ after.currentQuantity.getD 0)
    (hs : getState (before.currentQuantity.getD 0) (after.minQuantity.getD 0) ≠
          getState (after.currentQuantity.getD 0) (after.minQuantity.getD 0))
    (hsup : suppressAlert now after.lastAlertState after.lastAlertAt
        (getState (after.currentQuantity.getD 0) (after.minQuantity.getD 0)) = true) :
    notifyLowStock now tdb itemId before after =
      { item := { after with alertState := some (getState (after.currentQuantity.getD 0) (after.minQuantity.getD 0)) } } := by
  unfold notifyLowStock
  simp [hq, hs, hsup]

/-- Dispatch branch of lines 97–178: alert markers updated, audit and feed
records created, one message per enabled token. -/
theorem notifyLowStock_dispatch (now : Int) (tdb : List (String × TokenDoc)) (itemId : String)
    (before after : Item)
    (hq : before.currentQuantity.getD 0 ≠ after.currentQuantity.getD 0)
    (hs : getState (before.currentQuantity.getD 0) (after.minQuantity.getD 0) ≠
          getState (after.currentQuantity.getD 0) (after.minQuantity.getD 0))
    (hsup : suppressAlert now after.lastAlertState after.lastAlertAt
        (getState (after.currentQuantity.getD 0) (after.minQuantity.getD 0)) = false) :
    notifyLowStock now tdb itemId before after =
      (let afterQty := after.currentQuantity.getD 0
       let minQty := after.minQuantity.getD 0
       let prevState := getState (before.currentQuantity.getD 0) minQty
       let nextState := getState afterQty minQty
       let tokens := getEnabledTokens tdb after.siteId
       let itemName := after.name.getD "Unnamed item"
       let title :=
         match nextState with
         | .OUT => "Out of stock"
         | .LOW => "Low stock"
         | .OK => "Restocked"
       let body :=
         match nextState with
         | .OUT => s!"{itemName} is OUT (0 left)."
         | .LOW => s!"{itemName} is LOW ({afterQty} left, min {minQty})."
         | .OK => s!"{itemName} was restocked ({afterQty} now in stock)."
       { item :=
           { after with
             alertState := some nextState
             lastAlertAt := some now
             lastAlertState := some nextState }
         audit := some
           { createdAt := now
             itemId := itemId
             itemName := itemName
             prevState := prevState
             nextState := nextState
             qty := afterQty
             min := minQty
             tokenCount := tokens.length
             status := if tokens.length ≠ 0 then "sending" else "no_tokens" }
         feed := some
           { createdAt := some now
             type := some (if nextState = .OUT then "out" else if nextState = .LOW then "low" else "restock")
             title := some title
             body := some body
             itemId := some itemId
             itemName := some itemName
             qty := some afterQty
             min := some minQty
             siteId := some after.siteId
             readBy := emptyReadBy }
         messages := tokens.map (fun tk =>
           { «to» := tk
             title := title
             body := body
             data := { itemId := itemId, state := nextState, qty := afterQty, min := minQty } })
         dispatched := true }) := by
  unfold notifyLowStock
  simp [hq, hs, hsup]

/-- Any invocation that does not reach the dispatch path (early exit or
cooldown suppression) leaves `lastAlertAt` and `lastAlertState` untouched. -/
theorem notifyLowStock_nondispatch_frame (now : Int) (tdb : List (String × TokenDoc))
    (itemId : String) (before after : Item)
    (h : (notifyLowStock now tdb itemId before after).dispatched = false) :
    (notifyLowStock now tdb itemId before after).item.lastAlertAt = after.lastAlertAt ∧
      (notifyLowStock now tdb itemId before after).item.lastAlertState = after.lastAlertState := by
  by_cases h1 : before.currentQuantity.getD 0 = after.currentQuantity.getD 0
  · rw [notifyLowStock_qty_eq now tdb itemId before after h1]
    exact ⟨rfl, rfl⟩
  · by_cases h2 : getState (before.currentQuantity.getD 0) (after.minQuantity.getD 0) =
        getState (after.currentQuantity.getD 0) (after.minQuantity.getD 0)
    · rw [notifyLowStock_state_eq now tdb itemId before after h1 h2]
      exact ⟨rfl, rfl⟩
    · by_cases h3 : suppressAlert now after.lastAlertState after.lastAlertAt
          (getState (after.currentQuantity.getD 0) (after.minQuantity.getD 0)) = true
      · rw [notifyLowStock_suppressed now tdb itemId before after h1 h2 h3]
        exact ⟨rfl, rfl⟩
      · have h3f : suppressAlert now after.lastAlertState after.lastAlertAt
            (getState (after.currentQuantity.getD 0) (after.minQuantity.getD 0)) = false := by
          simpa using h3
        rw [notifyLowStock_dispatch now tdb itemId before after h1 h2 h3f] at h
        simp at h

/-- Over a whole sequence of non-dispatching invocations, the cooldown
bookkeeping fields keep the values set by the last dispatched alert. -/
theorem runUpdates_nondispatching_frame (tdb : List (String × TokenDoc)) (itemId : String)
    (us : List (Int × Option Int)) (item : Item)
    (h : allNonDispatching tdb itemId item us = true) :
    (runUpdates tdb itemId item us).lastAlertAt = item.lastAlertAt ∧
      (runUpdates tdb itemId item us).lastAlertState = item.lastAlertState := by
  induction us generalizing item with
  | nil => exact ⟨rfl, rfl⟩
  | cons u rest ih =>
    simp only [allNonDispatching, Bool.and_eq_true, Bool.not_eq_true'] at h
    obtain ⟨h1, h2⟩ := h
    have hf := notifyLowStock_nondispatch_frame u.1 tdb itemId item
      { item with currentQuantity := u.2 } h1
    have hr := ih (applyUpdate tdb itemId item u.1 u.2) h2
    rw [runUpdates]
    exact ⟨hr.1.trans hf.1, hr.2.trans hf.2⟩

/-- The feed `type` ternary of lines 149–150 agrees with the mapping-table
form. -/
theorem feedType_if_eq_match (n : StockState) :
    (if n = .OUT then "out" else if n = .LOW then "low" else "restock") = alertTypeFor n := by
  cases n <;> rfl

/-- Looking up the merged document: the written fields are applied on top of
the previous data, or onto a fresh `blank` document. -/
theorem lookupDoc_setMergeDoc_self {α : Type} (db : List (String × α)) (id : String)
    (f : α → α) (blank : α) :
    lookupDoc (setMergeDoc db id f blank) id =
      some (match lookupDoc db id with | some a => f a | none => blank) := by
  induction db with
  | nil => simp [setMergeDoc, lookupDoc]
  | cons p rest ih =>
    by_cases h : p.1 = id
    · simp [setMergeDoc, lookupDoc, h]
    · simp [setMergeDoc, lookupDoc, h, ih]

/-- A merge write to one document leaves every other document unchanged. -/
theorem lookupDoc_setMergeDoc_ne {α : Type} (db : List (String × α)) (id id' : String)
    (f : α → α) (blank : α) (h : id' ≠ id) :
    lookupDoc (setMergeDoc db id f blank) id' = lookupDoc db id' := by
  induction db with
  | nil => simp [setMergeDoc, lookupDoc, Ne.symm h]
  | cons p rest ih =>
    have h1 : id ≠ id' := Ne.symm h
    by_cases hp : p.1 = id
    · simp [setMergeDoc, lookupDoc, hp, h1, h]
    · simp [setMergeDoc, lookupDoc, hp, h1, h, ih]

/-- A `disableToken` call does not touch other tokens' documents. -/
theorem lookupDoc_disableToken_ne (db : List (String × TokenDoc)) (now : Int)
    (tok reason id : String) (h : id ≠ tok) :
    lookupDoc (disableToken db now tok reason) id = lookupDoc db id :=
  lookupDoc_setMergeDoc_ne db tok id _ _ h

/-- After `disableToken`, the targeted document exists, is disabled, and
carries the reason and timestamp. -/
theorem lookupDoc_disableToken_self (db : List (String × TokenDoc)) (now : Int)
    (tok reason : String) :
    ∃ d, lookupDoc (disableToken db now tok reason) tok = some d ∧
      d.enabled = some false ∧ d.disableReason = some reason ∧ d.disabledAt = some now := by
  rw [disableToken, lookupDoc_setMergeDoc_self]
  cases lookupDoc db tok with
  | none => exact ⟨_, rfl, rfl, rfl, rfl⟩
  | some d => exact ⟨_, rfl, rfl, rfl, rfl⟩

/-- A token untouched by every pair of the ticket/message list keeps its
document unchanged. -/
theorem processTicketPairs_unaffected (now : Int) (l : List (Ticket × PushMessage))
    (db : List (String × TokenDoc)) (tok : String)
    (h : ∀ tm ∈ l, ¬(tm.1.status = some "error" ∧ ticketReason tm.1 = "DeviceNotRegistered" ∧
        tm.2.«to» = tok)) :
    lookupDoc (processTicketPairs now db l) tok = lookupDoc db tok := by
  induction l generalizing db with
  | nil => rfl
  | cons tm rest ih =>
    simp only [processTicketPairs]
    by_cases hc : tm.1.status = some "error" ∧ ticketReason tm.1 = "DeviceNotRegistered"
    · rw [if_pos hc, ih _ (fun x hx => h x (List.mem_cons_of_mem _ hx))]
      exact lookupDoc_disableToken_ne db now tm.2.«to» (ticketReason tm.1) tok
        (fun he => h tm (List.mem_cons_self _ _) ⟨hc.1, hc.2, he.symm⟩)
    · rw [if_neg hc]
      exact ih _ (fun x hx => h x (List.mem_cons_of_mem _ hx))

/-- Once a token's document is in the disabled-for-`DeviceNotRegistered`
shape, processing further tickets keeps it in that shape (any later disable
writes the same reason and timestamp). -/
theorem processTicketPairs_disabled_stays (now : Int) (l : List (Ticket × PushMessage))
    (db : List (String × TokenDoc)) (tok : String)
    (h : ∃ d, lookupDoc db tok = some d ∧ d.enabled = some false ∧
        d.disableReason = some "DeviceNotRegistered" ∧ d.disabledAt = some now) :
    ∃ d, lookupDoc (processTicketPairs now db l) tok = some d ∧ d.enabled = some false ∧
      d.disableReason = some "DeviceNotRegistered" ∧ d.disabledAt = some now := by
  induction l generalizing db with
  | nil => exact h
  | cons tm rest ih =>
    simp only [processTicketPairs]
    by_cases hc : tm.1.status = some "error" ∧ ticketReason tm.1 = "DeviceNotRegistered"
    · rw [if_pos hc]
      apply ih
      by_cases he : tm.2.«to» = tok
      · subst he
        rw [hc.2]
        exact lookupDoc_disableToken_self db now tm.2.«to» "DeviceNotRegistered"
      · rw [lookupDoc_disableToken_ne db now tm.2.«to» (ticketReason tm.1) tok
          (fun hx => he hx.symm)]
        exact h
    · rw [if_neg hc]
      exact ih _ h

/-- Every ticket/message pair whose ticket is an error with reason
`DeviceNotRegistered` ends with its message's token disabled. -/
theorem processTicketPairs_disables (now : Int) (l : List (Ticket × PushMessage))
    (db : List (String × TokenDoc)) (tm : Ticket × PushMessage) (hmem : tm ∈ l)
    (hc : tm.1.status = some "error" ∧ ticketReason tm.1 = "DeviceNotRegistered") :
    ∃ d, lookupDoc (processTicketPairs now db l) tm.2.«to» = some d ∧ d.enabled = some false ∧
      d.disableReason = some "DeviceNotRegistered" ∧ d.disabledAt = some now := by
  induction l generalizing db with
  | nil => cases hmem
  | cons x rest ih =>
    simp only [processTicketPairs]
    rcases List.mem_cons.mp hmem with heq | hmem'
    · subst heq
      rw [if_pos hc]
      apply processTicketPairs_disabled_stays
      rw [hc.2]
      exact lookupDoc_disableToken_self db now tm.2.«to» "DeviceNotRegistered"
    · by_cases hx : x.1.status = some "error" ∧ ticketReason x.1 = "DeviceNotRegistered"
      · rw [if_pos hx]
        exact ih _ hmem'
      · rw [if_neg hx]
        exact ih _ hmem'

/-- Documents are never removed by delivery-outcome processing. -/
theorem processTicketPairs_preserves (now : Int) (l : List (Ticket × PushMessage))
    (db : List (String × TokenDoc)) (tok : String)
    (h : (lookupDoc db tok).isSome = true) :
    (lookupDoc (processTicketPairs now db l) tok).isSome = true := by
  induction l generalizing db with
  | nil => exact h
  | cons tm rest ih =>
    simp only [processTicketPairs]
    by_cases hc : tm.1.status = some "error" ∧ ticketReason tm.1 = "DeviceNotRegistered"
    · rw [if_pos hc]
      apply ih
      by_cases he : tok = tm.2.«to»
      · subst he
        obtain ⟨d, hd, _⟩ := lookupDoc_disableToken_self db now tm.2.«to» (ticketReason tm.1)
        rw [hd]
        rfl
      · rw [lookupDoc_disableToken_ne db now tm.2.«to» (ticketReason tm.1) tok he]
        exact h
    · rw [if_neg hc]
      exact ih _ h

/-- When every document's `token` field holds its own (non-empty) document
id, the `filter(Boolean)`-cleaned token projection is exactly the key
list. -/
theorem tokens_filterMap_eq_keys (l : List (String × TokenDoc))
    (h : ∀ p ∈ l, p.2.token = some p.1 ∧ p.1 ≠ "") :
    (l.map (fun p => p.2.token)).filterMap
      (fun t => match t with | none => none | some s => if s = "" then none else some s) =
      l.map Prod.fst := by
  induction l with
  | nil => rfl
  | cons p rest ih =>
    obtain ⟨h1, h2⟩ := h p (List.mem_cons_self _ _)
    simp [h1, h2, ih (fun x hx => h x (List.mem_cons_of_mem _ hx))]

/-- Under the same key discipline, `getEnabledTokens` returns the keys of the
documents matching the query. -/
theorem getEnabledTokens_eq_keys (db : List (String × TokenDoc)) (q : String)
    (htok : ∀ p ∈ db, p.2.token = some p.1) (hne : ∀ p ∈ db, p.1 ≠ "") :
    getEnabledTokens db q =
      (db.filter (fun p => decide (p.2.enabled = some true) &&
        decide (p.2.siteId = some q))).map Prod.fst := by
  rw [getEnabledTokens]
  apply tokens_filterMap_eq_keys
  intro p hp
  have hp' := List.mem_of_mem_filter hp
  exact ⟨htok p hp', hne p hp'⟩

/-- Writing `{token: true}` marks that token. -/
theorem setRead_self (m : ReadByMap) (tk : String) : setRead m tk tk = some true := by
  simp [setRead]

/-- Writing `{token: true}` leaves every other key of the map alone. -/
theorem setRead_ne (m : ReadByMap) (tk s : String) (h : s ≠ tk) : setRead m tk s = m s := by
  simp [setRead, h]

/-- Writing `{token: true}` twice equals writing it once. -/
theorem setRead_idem (m : ReadByMap) (tk : String) : setRead (setRead m tk) tk = setRead m tk := by
  funext s
  by_cases h : s = tk <;> simp [setRead, h]

/-- One `markOneAsRead` call never removes a token from any record's
`readBy` map. -/
theorem hasRead_markOneAsRead_mono (db : List (String × FeedRecord)) (now : Int)
    (aid : String) (tok : Option String) (id s : String)
    (h : hasRead db id s = true) :
    hasRead (markOneAsRead db now aid tok) id s = true := by
  cases tok with
  | none => exact h
  | some tk =>
    simp only [markOneAsRead]
    by_cases htk : tk = ""
    · rw [if_pos htk]
      exact h
    · rw [if_neg htk]
      by_cases hid : id = aid
      · subst hid
        unfold hasRead at h ⊢
        rw [lookupDoc_setMergeDoc_self]
        cases hlk : lookupDoc db id with
        | none =>
          rw [hlk] at h
          simp at h
        | some r =>
          rw [hlk] at h
          show ((setRead r.readBy tk) s).isSome = true
          by_cases hstk : s = tk
          · subst hstk
            rw [setRead_self]
            rfl
          · rw [setRead_ne _ _ _ hstk]
            exact h
      · unfold hasRead at h ⊢
        rw [lookupDoc_setMergeDoc_ne _ _ _ _ _ hid]
        exact h

/-- Over any sequence of `markOneAsRead` calls, the set of tokens present in
each record's `readBy` map only grows. -/
theorem hasRead_runMarks_mono (calls : List (Int × String × Option String))
    (db : List (String × FeedRecord)) (id s : String)
    (h : hasRead db id s = true) :
    hasRead (runMarks db calls) id s = true := by
  induction calls generalizing db with
  | nil => exact h
  | cons c rest ih =>
    exact ih _ (hasRead_markOneAsRead_mono db c.1 c.2.1 c.2.2 id s h)

/-! ## Claim theorems -/

/-- C2: for all integers `q` and `m` with `m ≥ 0`, `classify(q, m)`
(`getState`) returns exactly one of OUT, LOW, OK, with `q ≤ 0` (negative `q`
included) yielding OUT, `0 < q ≤ m` yielding LOW, `q > m` yielding OK, and in
particular `classify(0, m) = OUT`.  The function is a pure total Lean
function, hence has no side effects. -/
theorem classifier_total_spec (q m : Int) (hm : 0 ≤ m) :
    (getState q m = .OUT ∨ getState q m = .LOW ∨ getState q m = .OK) ∧
      (q ≤ 0 → getState q m = .OUT) ∧
      (0 < q → q ≤ m → getState q m = .LOW) ∧
      (m < q → getState q m = .OK) ∧
      getState 0 m = .OUT := by
  refine ⟨?_, ?_, ?_, ?_, ?_⟩
  · unfold getState
    split_ifs <;> simp
  · intro h
    simp [getState, h]
  · intro h1 h2
    have h0 : ¬ q ≤ 0 := by omega
    simp [getState, h0, h2]
  · intro h
    have h0 : ¬ q ≤ 0 := by omega
    have h1 : ¬ q ≤ m := by omega
    simp [getState, h0, h1]
  · simp [getState]

/-- Witness for C2 at `q = 2`, `m = 3`. -/
theorem classifier_total_spec_witness :
    (0:Int) ≤ 3 ∧
      ((getState 2 3 = .OUT ∨ getState 2 3 = .LOW ∨ getState 2 3 = .OK) ∧
        ((2:Int) ≤ 0 → getState 2 3 = .OUT) ∧
        ((0:Int) < 2 → (2:Int) ≤ 3 → getState 2 3 = .LOW) ∧
        ((3:Int) < 2 → getState 2 3 = .OK) ∧
        getState 0 3 = .OUT) :=
  ⟨by decide, classifier_total_spec 2 3 (by decide)⟩

/-- C7: when the before and after quantities are equal bit-for-bit, the
trigger exits immediately: the resulting stock record is the unmodified
`after` snapshot and no audit record, feed record or push message is
produced (`{ item := after }` has `audit = none`, `feed = none`,
`messages = []`, `dispatched = false` by the structure defaults). -/
theorem noop_frame_spec (now : Int) (tdb : List (String × TokenDoc)) (itemId : String)
    (before after : Item)
    (h : before.currentQuantity = after.currentQuantity) :
    notifyLowStock now tdb itemId before after = { item := after } :=
  notifyLowStock_qty_eq now tdb itemId before after (by rw [h])

/-- Witness for C7: the quantity is unchanged while the minimum changed and
the cached state is stale, yet nothing happens. -/
theorem noop_frame_spec_witness :
    ({ currentQuantity := some 2, minQuantity := some 5 } : Item).currentQuantity =
        ({ currentQuantity := some 2, minQuantity := some 9, alertState := some .OK } : Item).currentQuantity ∧
      notifyLowStock 0 [] "itemA" { currentQuantity := some 2, minQuantity := some 5 }
          { currentQuantity := some 2, minQuantity := some 9, alertState := some .OK } =
        { item := { currentQuantity := some 2, minQuantity := some 9, alertState := some .OK } } :=
  ⟨rfl, noop_frame_spec 0 [] "itemA" _ _ rfl⟩

/-- C1: on an alert-worthy transition (quantity changed and the bucket
changed), dispatch is suppressed exactly when the record's `lastAlertState`
equals the resulting state and `(now - lastAlertAt) / 60000 < 10`, a missing
`lastAlertAt` counting as infinite elapsed time; when suppressed only the
cached `alertState` is updated and no audit or feed record is created; when
not suppressed (in particular whenever the resulting state differs from
`lastAlertState`, regardless of elapsed time) `alertState`, `lastAlertState`
and `lastAlertAt` are all updated and the dispatch path runs (audit and feed
records are created). -/
theorem cooldown_gate_spec (now : Int) (tdb : List (String × TokenDoc)) (itemId : String)
    (before after : Item) (ns : StockState)
    (hns : ns = getState (after.currentQuantity.getD 0) (after.minQuantity.getD 0))
    (hq : before.currentQuantity.getD 0 ≠ after.currentQuantity.getD 0)
    (hs : getState (before.currentQuantity.getD 0) (after.minQuantity.getD 0) ≠ ns) :
    ((notifyLowStock now tdb itemId before after).dispatched = false ↔
        after.lastAlertState = some ns ∧
          ∃ ts, after.lastAlertAt = some ts ∧ minutesSince now ts < COOLDOWN_MINUTES) ∧
      ((notifyLowStock now tdb itemId before after).dispatched = false →
        (notifyLowStock now tdb itemId before after).item = { after with alertState := some ns } ∧
          (notifyLowStock now tdb itemId before after).audit = none ∧
          (notifyLowStock now tdb itemId before after).feed = none ∧
          (notifyLowStock now tdb itemId before after).messages = []) ∧
      ((notifyLowStock now tdb itemId before after).dispatched = true →
        (notifyLowStock now tdb itemId before after).item =
            { after with alertState := some ns, lastAlertAt := some now, lastAlertState := some ns } ∧
          (notifyLowStock now tdb itemId before after).audit.isSome = true ∧
          (notifyLowStock now tdb itemId before after).feed.isSome = true) := by
  subst hns
  by_cases hsup : suppressAlert now after.lastAlertState after.lastAlertAt
      (getState (after.currentQuantity.getD 0) (after.minQuantity.getD 0)) = true
  · rw [notifyLowStock_suppressed now tdb itemId before after hq hs hsup]
    refine ⟨?_, ?_, ?_⟩
    · constructor
      · intro _
        exact (suppressAlert_eq_true_iff _ _ _ _).mp hsup
      · intro _
        rfl
    · intro _
      exact ⟨rfl, rfl, rfl, rfl⟩
    · intro h
      simp at h
  · have hsupf : suppressAlert now after.lastAlertState after.lastAlertAt
        (getState (after.currentQuantity.getD 0) (after.minQuantity.getD 0)) = false := by
      simpa using hsup
    rw [notifyLowStock_dispatch now tdb itemId before after hq hs hsupf]
    refine ⟨?_, ?_, ?_⟩
    · constructor
      · intro h
        simp at h
      · intro hc
        exact absurd ((suppressAlert_eq_true_iff _ _ _ _).mpr hc) hsup
    · intro h
      simp at h
    · intro _
      exact ⟨rfl, rfl, rfl⟩

/-- Witness for C1: an OK→LOW transition with `lastAlertState = LOW` and a
5-minute-old `lastAlertAt` is suppressed. -/
theorem cooldown_gate_spec_witness :
    (notifyLowStock 300000 [] "itemA"
        { currentQuantity := some 12, minQuantity := some 10 }
        { currentQuantity := some 7, minQuantity := some 10, lastAlertAt := some 0,
          lastAlertState := some .LOW }).dispatched = false :=
  (cooldown_gate_spec 300000 [] "itemA"
      { currentQuantity := some 12, minQuantity := some 10 }
      { currentQuantity := some 7, minQuantity := some 10, lastAlertAt := some 0,
        lastAlertState := some .LOW }
      .LOW (by decide) (by decide) (by decide)).1.mpr
    ⟨rfl, 0, rfl, by norm_num [minutesSince, COOLDOWN_MINUTES]⟩

/-- C3: on every allowed (non-suppressed) alert-worthy transition, exactly
one audit record is created, with status `"sending"` exactly when the
resolved recipient list is non-empty and `"no_tokens"` exactly when it is
empty, and exactly one feed record is created with `readBy = {}` and
`type`/`title`/`body` given by the fixed mapping table (OUT ↦ `"out"`,
"Out of stock", "{itemName} is OUT (0 left)."; LOW ↦ `"low"`, "Low stock",
"{itemName} is LOW ({qty} left, min {min})."; OK ↦ `"restock"`,
"Restocked", "{itemName} was restocked ({qty} now in stock)."); both records
exist no matter how many recipients resolved, in particular when there are
zero. -/
theorem alert_records_spec (now : Int) (tdb : List (String × TokenDoc)) (itemId : String)
    (before after : Item) (ns : StockState) (nm : String) (qv mv : Int)
    (hns : ns = getState (after.currentQuantity.getD 0) (after.minQuantity.getD 0))
    (hnm : nm = after.name.getD "Unnamed item")
    (hqv : qv = after.currentQuantity.getD 0)
    (hmv : mv = after.minQuantity.getD 0)
    (hq : before.currentQuantity.getD 0 ≠ after.currentQuantity.getD 0)
    (hs : getState (before.currentQuantity.getD 0) (after.minQuantity.getD 0) ≠ ns)
    (hsup : suppressAlert now after.lastAlertState after.lastAlertAt ns = false) :
    (∃ a, (notifyLowStock now tdb itemId before after).audit = some a ∧
        (a.status = "sending" ↔ getEnabledTokens tdb after.siteId ≠ []) ∧
        (a.status = "no_tokens" ↔ getEnabledTokens tdb after.siteId = []) ∧
        a.tokenCount = (getEnabledTokens tdb after.siteId).length) ∧
      (∃ f, (notifyLowStock now tdb itemId before after).feed = some f ∧
        f.readBy = emptyReadBy ∧
        f.type = some (alertTypeFor ns) ∧
        f.title = some (alertTitleFor ns) ∧
        f.body = some (alertBodyFor ns nm qv mv)) := by
  subst hns hnm hqv hmv
  rw [notifyLowStock_dispatch now tdb itemId before after hq hs hsup]
  refine ⟨⟨_, rfl, ?_, ?_, rfl⟩, _, rfl, rfl, ?_, ?_, ?_⟩
  · show (if (getEnabledTokens tdb after.siteId).length ≠ 0 then "sending" else "no_tokens") = "sending" ↔
      getEnabledTokens tdb after.siteId ≠ []
    by_cases h : getEnabledTokens tdb after.siteId = []
    · simp [h]
    · simp [h, List.length_eq_zero]
  · show (if (getEnabledTokens tdb after.siteId).length ≠ 0 then "sending" else "no_tokens") = "no_tokens" ↔
      getEnabledTokens tdb after.siteId = []
    by_cases h : getEnabledTokens tdb after.siteId = []
    · simp [h]
    · simp [h, List.length_eq_zero]
  · exact congrArg some
      (feedType_if_eq_match (getState (after.currentQuantity.getD 0) (after.minQuantity.getD 0)))
  · rfl
  · rfl

/-- Witness for C3: the spec's end-to-end scenario — LOW item dropping to 0
with zero registered tokens still yields both records. -/
theorem alert_records_spec_witness :
    ((notifyLowStock 0 [] "itemA"
        { currentQuantity := some 5, minQuantity := some 10 }
        { currentQuantity := some 0, minQuantity := some 10, name := some "Rice" }).audit.map
      (fun a => (a.status, a.tokenCount)) = some ("no_tokens", 0)) ∧
      ((notifyLowStock 0 [] "itemA"
          { currentQuantity := some 5, minQuantity := some 10 }
          { currentQuantity := some 0, minQuantity := some 10, name := some "Rice" }).feed.map
        (fun f => (f.type, f.title, f.body, f.readBy "tokX"))
        = some (some "out", some "Out of stock", some "Rice is OUT (0 left).", none)) := by
  obtain ⟨⟨a, ha, _, hs2, hcnt⟩, f, hf, hrb, hty, hti, hbo⟩ :=
    alert_records_spec 0 [] "itemA"
      { currentQuantity := some 5, minQuantity := some 10 }
      { currentQuantity := some 0, minQuantity := some 10, name := some "Rice" }
      .OUT "Rice" 0 10 (by decide) rfl rfl rfl (by decide) (by decide) (by decide)
  constructor
  · rw [ha]
    show some (a.status, a.tokenCount) = some ("no_tokens", 0)
    rw [hs2.mpr rfl, hcnt]
    rfl
  · rw [hf]
    show some (f.type, f.title, f.body, f.readBy "tokX") =
      some (some "out", some "Out of stock", some "Rice is OUT (0 left).", none)
    rw [hty, hti, hbo, hrb]
    rfl

/-- C5 counterexample: a single trigger-processed mutation that changes both
the quantity (5 → 4) and the minimum (3 → 10) lands the previous and next
classifications in the same bucket (LOW), so the trigger exits without
touching the record; the cached `alertState` stays OK although
`classify(4, 10) = LOW`.  This refutes the claim that `alertState` equals the
classification of the post-mutation values after every processed mutation. -/
theorem alert_cache_invariant_cex :
    (notifyLowStock 0 [] "itemA"
        { currentQuantity := some 5, minQuantity := some 3, alertState := some .OK }
        { currentQuantity := some 4, minQuantity := some 10, alertState := some .OK }).item.alertState ≠
      some (getState 4 10) := by decide

/-- C5 (amended): after any trigger-processed mutation, the cached
`alertState` equals `classify(quantityCurrent, quantityMin)` of the
post-mutation values provided the cached state already equalled the
classification of the pre-mutation quantity under the post-mutation minimum —
in particular whenever the minimum is unchanged and the invariant held before
the mutation.  (The counterexample shows the proviso is necessary when the
minimum changes.) -/
theorem alert_cache_invariant_amended (now : Int) (tdb : List (String × TokenDoc))
    (itemId : String) (before after : Item)
    (hcache : after.alertState =
        some (getState (before.currentQuantity.getD 0) (after.minQuantity.getD 0))) :
    (notifyLowStock now tdb itemId before after).item.alertState =
      some (getState (after.currentQuantity.getD 0) (after.minQuantity.getD 0)) := by
  by_cases h1 : before.currentQuantity.getD 0 = after.currentQuantity.getD 0
  · rw [notifyLowStock_qty_eq now tdb itemId before after h1]
    show after.alertState = _
    rw [hcache, h1]
  · by_cases h2 : getState (before.currentQuantity.getD 0) (after.minQuantity.getD 0) =
        getState (after.currentQuantity.getD 0) (after.minQuantity.getD 0)
    · rw [notifyLowStock_state_eq now tdb itemId before after h1 h2]
      show after.alertState = _
      rw [hcache, h2]
    · by_cases h3 : suppressAlert now after.lastAlertState after.lastAlertAt
          (getState (after.currentQuantity.getD 0) (after.minQuantity.getD 0)) = true
      · rw [notifyLowStock_suppressed now tdb itemId before after h1 h2 h3]
      · have h3f : suppressAlert now after.lastAlertState after.lastAlertAt
            (getState (after.currentQuantity.getD 0) (after.minQuantity.getD 0)) = false := by
          simpa using h3
        rw [notifyLowStock_dispatch now tdb itemId before after h1 h2 h3f]

/-- Witness for the amended C5: minimum unchanged, invariant holds before
(alertState = LOW = classify(5, 10)) and after (classify(0, 10) = OUT). -/
theorem alert_cache_invariant_amended_witness :
    ({ currentQuantity := some 0, minQuantity := some 10, alertState := some .LOW } : Item).alertState =
        some (getState (({ currentQuantity := some 5, minQuantity := some 10 } : Item).currentQuantity.getD 0)
          (({ currentQuantity := some 0, minQuantity := some 10, alertState := some .LOW } : Item).minQuantity.getD 0)) ∧
      (notifyLowStock 7 [] "itemA" { currentQuantity := some 5, minQuantity := some 10 }
          { currentQuantity := some 0, minQuantity := some 10, alertState := some .LOW }).item.alertState =
        some (getState (({ currentQuantity := some 0, minQuantity := some 10, alertState := some .LOW } : Item).currentQuantity.getD 0)
          (({ currentQuantity := some 0, minQuantity := some 10, alertState := some .LOW } : Item).minQuantity.getD 0)) :=
  ⟨by decide,
    alert_cache_invariant_amended 7 [] "itemA"
      { currentQuantity := some 5, minQuantity := some 10 }
      { currentQuantity := some 0, minQuantity := some 10, alertState := some .LOW }
      (by decide)⟩

/-- C10: on a suppressed transition the only field written to the stock
record is `alertState` (the result is exactly `after` with `alertState`
replaced); consequently `lastAlertAt` and `lastAlertState` keep the values
set by the last dispatched alert, and across any sequence of non-dispatching
invocations (suppressed or early-exit) the cooldown window is never extended:
it stays measured from the last alert that actually dispatched. -/
theorem suppressed_frame_spec (now : Int) (tdb : List (String × TokenDoc)) (itemId : String)
    (before after : Item) (ns : StockState)
    (hns : ns = getState (after.currentQuantity.getD 0) (after.minQuantity.getD 0))
    (hq : before.currentQuantity.getD 0 ≠ after.currentQuantity.getD 0)
    (hs : getState (before.currentQuantity.getD 0) (after.minQuantity.getD 0) ≠ ns)
    (hsup : suppressAlert now after.lastAlertState after.lastAlertAt ns = true) :
    (notifyLowStock now tdb itemId before after).item = { after with alertState := some ns } ∧
      ∀ (item : Item) (us : List (Int × Option Int)),
        allNonDispatching tdb itemId item us = true →
          (runUpdates tdb itemId item us).lastAlertAt = item.lastAlertAt ∧
            (runUpdates tdb itemId item us).lastAlertState = item.lastAlertState := by
  subst hns
  refine ⟨?_, fun item us h => runUpdates_nondispatching_frame tdb itemId us item h⟩
  rw [notifyLowStock_suppressed now tdb itemId before after hq hs hsup]

/-- Witness for C10: a suppressed OK→LOW transition five minutes after a LOW
alert, and a one-step non-dispatching sequence on the same record. -/
theorem suppressed_frame_spec_witness :
    (notifyLowStock 300000 [] "itemA"
        { currentQuantity := some 12, minQuantity := some 10 }
        { currentQuantity := some 7, minQuantity := some 10, lastAlertAt := some 0,
          lastAlertState := some .LOW }).item =
      { ({ currentQuantity := some 7, minQuantity := some 10, lastAlertAt := some 0,
           lastAlertState := some .LOW } : Item) with alertState := some .LOW } ∧
      (runUpdates [] "itemA"
          { currentQuantity := some 12, minQuantity := some 10, lastAlertAt := some 0,
            lastAlertState := some .LOW }
          [(300000, some 7)]).lastAlertAt =
        ({ currentQuantity := some 12, minQuantity := some 10, lastAlertAt := some 0,
           lastAlertState := some .LOW } : Item).lastAlertAt := by
  have h := suppressed_frame_spec 300000 [] "itemA"
    { currentQuantity := some 12, minQuantity := some 10 }
    { currentQuantity := some 7, minQuantity := some 10, lastAlertAt := some 0,
      lastAlertState := some .LOW }
    .LOW (by decide) (by decide) (by decide) (by decide)
  exact ⟨h.1,
    (h.2 { currentQuantity := some 12, minQuantity := some 10, lastAlertAt := some 0,
           lastAlertState := some .LOW } [(300000, some 7)] (by decide)).1⟩

/-- C4: delivery tickets are matched to request messages by position (the
`zip` of the two lists).  A ticket with `status = "error"` and
`details.error = "DeviceNotRegistered"` causes the token of the message at
the same position to be set `enabled = false` with a recorded reason and
timestamp, and the document is never physically deleted; any token not named
by some error ticket whose extracted reason is `"DeviceNotRegistered"` keeps
its document entirely unchanged (in particular tickets with any other error
reason only log and disable nothing); and no document present before
processing is removed by it. -/
theorem delivery_outcome_spec (db : List (String × TokenDoc)) (now : Int)
    (tickets : List Ticket) (messages : List PushMessage) :
    (∀ tm ∈ tickets.zip messages, tm.1.status = some "error" →
        tm.1.detailsError = some "DeviceNotRegistered" →
        ∃ d, lookupDoc (processTickets db now tickets messages) tm.2.«to» = some d ∧
          d.enabled = some false ∧ d.disableReason = some "DeviceNotRegistered" ∧
          d.disabledAt = some now) ∧
      (∀ tok : String,
        (∀ tm ∈ tickets.zip messages,
          ¬(tm.1.status = some "error" ∧ ticketReason tm.1 = "DeviceNotRegistered" ∧
            tm.2.«to» = tok)) →
        lookupDoc (processTickets db now tickets messages) tok = lookupDoc db tok) ∧
      (∀ tok : String, (lookupDoc db tok).isSome = true →
        (lookupDoc (processTickets db now tickets messages) tok).isSome = true) := by
  refine ⟨?_, ?_, ?_⟩
  · intro tm hmem hst hde
    have hr : ticketReason tm.1 = "DeviceNotRegistered" := by
      rw [ticketReason, hde]
      rfl
    exact processTicketPairs_disables now (tickets.zip messages) db tm hmem ⟨hst, hr⟩
  · intro tok h
    exact processTicketPairs_unaffected now (tickets.zip messages) db tok h
  · intro tok h
    exact processTicketPairs_preserves now (tickets.zip messages) db tok h

/-- Witness for C4: two messages, an OK ticket and a `DeviceNotRegistered`
error ticket; the second token is disabled, the first document stays
unchanged. -/
theorem delivery_outcome_spec_witness :
    (∃ d, lookupDoc (processTickets
        [("tokA", { token := some "tokA", enabled := some true }),
         ("tokB", { token := some "tokB", enabled := some true })] 99
        [{ status := some "ok" },
         { status := some "error", detailsError := some "DeviceNotRegistered" }]
        [{ «to» := "tokA", title := "t", body := "b",
           data := { itemId := "i", state := .OUT, qty := 0, min := 1 } },
         { «to» := "tokB", title := "t", body := "b",
           data := { itemId := "i", state := .OUT, qty := 0, min := 1 } }]) "tokB" = some d ∧
      d.enabled = some false ∧ d.disableReason = some "DeviceNotRegistered" ∧
      d.disabledAt = some 99) ∧
      lookupDoc (processTickets
        [("tokA", { token := some "tokA", enabled := some true }),
         ("tokB", { token := some "tokB", enabled := some true })] 99
        [{ status := some "ok" },
         { status := some "error", detailsError := some "DeviceNotRegistered" }]
        [{ «to» := "tokA", title := "t", body := "b",
           data := { itemId := "i", state := .OUT, qty := 0, min := 1 } },
         { «to» := "tokB", title := "t", body := "b",
           data := { itemId := "i", state := .OUT, qty := 0, min := 1 } }]) "tokA" =
        lookupDoc
          [("tokA", ({ token := some "tokA", enabled := some true } : TokenDoc)),
           ("tokB", { token := some "tokB", enabled := some true })] "tokA" := by
  have h := delivery_outcome_spec
    [("tokA", { token := some "tokA", enabled := some true }),
     ("tokB", { token := some "tokB", enabled := some true })] 99
    [{ status := some "ok" },
     { status := some "error", detailsError := some "DeviceNotRegistered" }]
    [{ «to» := "tokA", title := "t", body := "b",
       data := { itemId := "i", state := .OUT, qty := 0, min := 1 } },
     { «to» := "tokB", title := "t", body := "b",
       data := { itemId := "i", state := .OUT, qty := 0, min := 1 } }]
  exact ⟨h.1
      ({ status := some "error", detailsError := some "DeviceNotRegistered" },
        { «to» := "tokB", title := "t", body := "b",
          data := { itemId := "i", state := .OUT, qty := 0, min := 1 } })
      (by decide) rfl rfl,
    h.2.1 "tokA" (by decide)⟩

/-- C6: for any population of device-token documents — provided each
document's `token` field holds its own document id (the write paths
`savePushToken` and `disableToken` both key the document by the token
string), ids are unique (Firestore document ids) and non-empty —
`resolveRecipients` (`getEnabledTokens`) returns exactly the token strings of
the documents with `enabled == true` and the queried `siteId`, without
duplicates; no returned token belongs to a disabled document or to a document
scoped to a different site. -/
theorem fanout_scoping_spec (db : List (String × TokenDoc)) (q : String)
    (htok : ∀ p ∈ db, p.2.token = some p.1)
    (hnd : (db.map Prod.fst).Nodup)
    (hne : ∀ p ∈ db, p.1 ≠ "") :
    (getEnabledTokens db q).Nodup ∧
      (∀ t, t ∈ getEnabledTokens db q ↔
        ∃ p ∈ db, p.2.enabled = some true ∧ p.2.siteId = some q ∧ p.2.token = some t) ∧
      (∀ t ∈ getEnabledTokens db q, ∀ p ∈ db, p.2.token = some t →
        p.2.enabled = some true ∧ p.2.siteId = some q) := by
  have hkeys := getEnabledTokens_eq_keys db q htok hne
  refine ⟨?_, ?_, ?_⟩
  · rw [hkeys]
    exact ((List.filter_sublist _).map Prod.fst).nodup hnd
  · intro t
    rw [hkeys, List.mem_map]
    constructor
    · rintro ⟨p, hpf, rfl⟩
      have hmem := List.mem_of_mem_filter hpf
      have hcond := (List.mem_filter.mp hpf).2
      simp only [Bool.and_eq_true, decide_eq_true_eq] at hcond
      exact ⟨p, hmem, hcond.1, hcond.2, htok p hmem⟩
    · rintro ⟨p, hmem, he, hsid, htk⟩
      refine ⟨p, List.mem_filter.mpr ⟨hmem, ?_⟩, ?_⟩
      · simp [he, hsid]
      · have hx := htok p hmem
        rw [htk] at hx
        exact (Option.some_inj.mp hx).symm
  · intro t ht p hmem htk
    rw [hkeys] at ht
    obtain ⟨p₀, hp₀f, hp₀t⟩ := List.mem_map.mp ht
    have hp₀mem := List.mem_of_mem_filter hp₀f
    have hcond := (List.mem_filter.mp hp₀f).2
    simp only [Bool.and_eq_true, decide_eq_true_eq] at hcond
    have hpt : p.1 = t := by
      have hx := htok p hmem
      rw [htk] at hx
      exact (Option.some_inj.mp hx).symm
    have hpp : p = p₀ := List.inj_on_of_nodup_map hnd hmem hp₀mem (by rw [hpt, hp₀t])
    rw [hpp]
    exact ⟨hcond.1, hcond.2⟩

/-- Witness for C6: four tokens across two sites, one disabled; the `s1`
query returns no duplicates and only enabled `s1` tokens. -/
theorem fanout_scoping_spec_witness :
    (getEnabledTokens
        [("t1", { token := some "t1", enabled := some true, siteId := some "s1" }),
         ("t2", { token := some "t2", enabled := some false, siteId := some "s1" }),
         ("t3", { token := some "t3", enabled := some true, siteId := some "s2" }),
         ("t4", { token := some "t4", enabled := some true, siteId := some "s1" })] "s1").Nodup ∧
      (({ token := some "t1", enabled := some true, siteId := some "s1" } : TokenDoc).enabled = some true ∧
        ({ token := some "t1", enabled := some true, siteId := some "s1" } : TokenDoc).siteId = some "s1") := by
  have h := fanout_scoping_spec
    [("t1", { token := some "t1", enabled := some true, siteId := some "s1" }),
     ("t2", { token := some "t2", enabled := some false, siteId := some "s1" }),
     ("t3", { token := some "t3", enabled := some true, siteId := some "s2" }),
     ("t4", { token := some "t4", enabled := some true, siteId := some "s1" })] "s1"
    (by decide) (by decide) (by decide)
  exact ⟨h.1,
    h.2.2 "t1" (by decide)
      ("t1", { token := some "t1", enabled := some true, siteId := some "s1" })
      (by decide) rfl⟩

/-- C9: token registration rejects reassignment.  If the existing document
for the token carries a (non-empty) `uid` different from the caller's, or a
non-empty `siteId` different from the requested (trimmed) one, the function
returns with the collection — and in particular the existing document —
entirely unchanged, raising nothing (the model is a total function).
Otherwise (for a signed-in caller and a non-empty trimmed site id) it upserts
the document with the caller's uid, the trimmed `siteId`, and
`enabled = true`. -/
theorem token_registration_spec (db : List (String × TokenDoc)) (now : Int) (uid : String)
    (token siteId : String) (label : Option String) (platform : String) :
    (∀ d, lookupDoc db token = some d →
        ((∃ u, d.uid = some u ∧ u ≠ "" ∧ u ≠ uid) ∨
          (∃ s, d.siteId = some s ∧ s ≠ "" ∧ s ≠ jsTrim siteId)) →
        savePushToken db now (some uid) token siteId label platform = db) ∧
      (jsTrim siteId ≠ "" →
        (∀ d, lookupDoc db token = some d →
          (∀ u, d.uid = some u → u = "" ∨ u = uid) ∧
          (∀ s, d.siteId = some s → s = "" ∨ s = jsTrim siteId)) →
        ∃ d, lookupDoc (savePushToken db now (some uid) token siteId label platform) token = some d ∧
          d.uid = some uid ∧ d.siteId = some (jsTrim siteId) ∧ d.enabled = some true ∧
          d.token = some token) := by
  constructor
  · intro d hd hbad
    by_cases hcl : jsTrim siteId = ""
    · simp [savePushToken, hcl]
    · rcases hbad with ⟨u, hu, hune, huneq⟩ | ⟨s, hs, hsne, hsneq⟩
      · simp [savePushToken, hcl, hd, jsTruthyStr, hu, hune, huneq]
      · simp only [savePushToken]
        rw [if_neg hcl]
        simp only [hd]
        cases hb : (jsTruthyStr d.uid && decide (d.uid ≠ some uid)) with
        | true => rfl
        | false =>
          rw [if_neg Bool.false_ne_true]
          have hst : (jsTruthyStr d.siteId && decide (d.siteId ≠ some (jsTrim siteId))) = true := by
            simp [hs, jsTruthyStr, hsne, hsneq]
          rw [if_pos hst]
  · intro hcl hok
    cases hlk : lookupDoc db token with
    | none =>
      simp only [savePushToken]
      rw [if_neg hcl]
      simp only [hlk]
      rw [if_neg Bool.false_ne_true, if_neg Bool.false_ne_true]
      rw [lookupDoc_setMergeDoc_self, hlk]
      exact ⟨_, rfl, rfl, rfl, rfl, rfl⟩
    | some d =>
      obtain ⟨hok1, hok2⟩ := hok d hlk
      have hu : (jsTruthyStr d.uid && decide (d.uid ≠ some uid)) = false := by
        cases hdu : d.uid with
        | none => simp [jsTruthyStr]
        | some u =>
          rcases hok1 u hdu with h | h
          · simp [jsTruthyStr, h]
          · simp [h]
      have hsi : (jsTruthyStr d.siteId && decide (d.siteId ≠ some (jsTrim siteId))) = false := by
        cases hds : d.siteId with
        | none => simp [jsTruthyStr]
        | some s =>
          rcases hok2 s hds with h | h
          · simp [jsTruthyStr, h]
          · simp [h]
      simp only [savePushToken]
      rw [if_neg hcl]
      simp only [hlk]
      rw [if_neg (by rw [hu]; exact Bool.false_ne_true),
        if_neg (by rw [hsi]; exact Bool.false_ne_true)]
      rw [lookupDoc_setMergeDoc_self, hlk]
      exact ⟨_, rfl, rfl, rfl, rfl, rfl⟩

/-- Witness for C9: a foreign-uid registration no-ops; a fresh registration
upserts the trimmed site id with `enabled = true`. -/
theorem token_registration_spec_witness :
    (savePushToken [("tokA", { uid := some "userX", siteId := some "s1" })] 5 (some "userY")
        "tokA" "s1" none "ios" = [("tokA", { uid := some "userX", siteId := some "s1" })]) ∧
      ∃ d, lookupDoc (savePushToken [] 5 (some "userY") "tokA" " s1 " (some " kitchen ") "ios")
          "tokA" = some d ∧
        d.uid = some "userY" ∧ d.siteId = some (jsTrim " s1 ") ∧ d.enabled = some true ∧
        d.token = some "tokA" := by
  constructor
  · exact (token_registration_spec [("tokA", { uid := some "userX", siteId := some "s1" })]
      5 "userY" "tokA" "s1" none "ios").1
      { uid := some "userX", siteId := some "s1" } rfl
      (Or.inl ⟨"userX", rfl, by decide, by decide⟩)
  · exact (token_registration_spec [] 5 "userY" "tokA" " s1 " (some " kitchen ") "ios").2
      (by decide) (fun d hd => by simp [lookupDoc] at hd)

/-- C8: `markRead(alertId, token)` adds `{token: true}` to that feed
record's `readBy` map with merge semantics: the marked token maps to `true`
while every other token's entry is untouched; applying the call twice leaves
the same `readBy` map as applying it once; and over any sequence of
`markRead` calls by any tokens on any records, the set of tokens present in
a record's `readBy` map is non-decreasing. -/
theorem markRead_spec (db : List (String × FeedRecord)) (now now2 : Int)
    (aid tk s : String) (calls : List (Int × String × Option String))
    (htk : tk ≠ "") :
    (∀ r, lookupDoc db aid = some r →
        ∃ r', lookupDoc (markOneAsRead db now aid (some tk)) aid = some r' ∧
          r'.readBy tk = some true ∧ ∀ x, x ≠ tk → r'.readBy x = r.readBy x) ∧
      ((lookupDoc (markOneAsRead (markOneAsRead db now aid (some tk)) now2 aid (some tk)) aid).map
          (fun r => r.readBy) =
        (lookupDoc (markOneAsRead db now aid (some tk)) aid).map (fun r => r.readBy)) ∧
      (hasRead db aid s = true → hasRead (runMarks db calls) aid s = true) := by
  refine ⟨?_, ?_, fun h => hasRead_runMarks_mono calls db aid s h⟩
  · intro r hr
    simp only [markOneAsRead]
    rw [if_neg htk, lookupDoc_setMergeDoc_self, hr]
    exact ⟨_, rfl, setRead_self _ _, fun x hx => setRead_ne _ _ _ hx⟩
  · simp only [markOneAsRead]
    simp only [if_neg htk]
    rw [lookupDoc_setMergeDoc_self, lookupDoc_setMergeDoc_self]
    cases hlk : lookupDoc db aid with
    | none => exact congrArg some (setRead_idem emptyReadBy tk)
    | some r => exact congrArg some (setRead_idem r.readBy tk)

/-- Witness for C8: marking the same alert read twice with the same token
leaves the same `readBy` map, and a read mark survives later marks by other
tokens and on other alerts. -/
theorem markRead_spec_witness :
    ((lookupDoc (markOneAsRead (markOneAsRead [("a1", ({ } : FeedRecord))] 5 "a1" (some "tok1"))
          6 "a1" (some "tok1")) "a1").map (fun r => r.readBy) =
        (lookupDoc (markOneAsRead [("a1", ({ } : FeedRecord))] 5 "a1" (some "tok1")) "a1").map
          (fun r => r.readBy)) ∧
      hasRead (runMarks [("a1", ({ readBy := setRead emptyReadBy "tok1" } : FeedRecord))]
          [(5, "a1", some "tok2"), (6, "a2", some "tok1")]) "a1" "tok1" = true :=
  ⟨(markRead_spec [("a1", { })] 5 6 "a1" "tok1" "s" [] (by decide)).2.1,
    (markRead_spec [("a1", { readBy := setRead emptyReadBy "tok1" })] 0 0 "a1" "tok1" "tok1"
        [(5, "a1", some "tok2"), (6, "a2", some "tok1")] (by decide)).2.2 (by decide)⟩

end HouseOps
